import Mathlib

/-!
Verification of `src/sr9.cpp`: a thin wrapper around the PROJ geodesy engine
converting WGS84 (lat, lon) to SWEREF99 TM (north, east).

The wrapper's own logic (lazy global initialization, cleanup, the sentinel
failure policy, buffer return convention) is embedded faithfully below.  The
PROJ engine itself is external to the repository and is modelled as an opaque
record of functions (`Engine`); where a claim needs the engine's actual
Transverse Mercator mathematics, a computable rational-arithmetic model of the
EPSG:9807 forward projection with the parameters hardcoded in the source's
PROJJSON literal is used, clearly marked as modelled from the spec.
-/

namespace SR9

/-- IEEE-754 double values as far as the wrapper observes them: a finite value
(modelled as an exact rational), the two infinities, and NaN.  `HUGE_VAL` from
`<math.h>` is positive infinity. -/
inductive FP where
  | finite : ℚ → FP
  | posInf : FP
  | negInf : FP
  | nan    : FP
deriving DecidableEq

/-- C `==` on doubles (IEEE semantics): NaN compares unequal to everything,
including itself; the two infinities compare equal only to themselves. -/
def fpBeq : FP → FP → Bool
  | FP.nan, _ => false
  | _, FP.nan => false
  | FP.finite a, FP.finite b => a == b
  | FP.posInf, FP.posInf => true
  | FP.negInf, FP.negInf => true
  | _, _ => false

/-- `HUGE_VAL` from `<math.h>`: positive infinity. -/
def HUGE_VAL : FP := FP.posInf

/-- `d` is a finite double (neither infinite nor NaN). -/
def isFinite : FP → Bool
  | FP.finite _ => true
  | _ => false

/-- Opaque PROJ context handle (`PJ_CONTEXT *`); `none` models `NULL`. -/
abbrev Ctx := Nat

/-- Opaque PROJ transformation handle (`PJ *`); `none` models `NULL`. -/
abbrev PJ := Nat

/-- `PJ_DIRECTION` from `proj.h`. -/
inductive PJ_DIRECTION where
  | PJ_FWD | PJ_IDENT | PJ_INV
deriving DecidableEq

/-- The forward direction constant passed by the source to `proj_trans`. -/
def PJ_FWD : PJ_DIRECTION := PJ_DIRECTION.PJ_FWD

/-- `PJ_COORD` as the source uses it: the `xyzt` quadruple of doubles.
The source reads the `xy` view (`b.xy.x`, `b.xy.y`), which aliases the first
two components. -/
structure PJ_COORD where
  x : FP
  y : FP
  z : FP
  t : FP
deriving DecidableEq

/-- `proj_coord(x, y, z, t)`: builds the coordinate quadruple in that order.
The source calls it as `proj_coord(lon, lat, 0, 0)`. -/
def proj_coord (x y z t : FP) : PJ_COORD := ⟨x, y, z, t⟩

/-- Stands for the two PROJJSON string literals in the source:
`WGS84_PROJJSON` (EPSG:4326) and `SWEREF99_TM_PROJJSON` (EPSG:3006). -/
inductive CRSDef where
  | wgs84 | sweref99tm
deriving DecidableEq

/-- The external PROJ engine, opaque to this repository: the four library
entry points the wrapper calls, as (fixed, deterministic) functions.  `none`
results model the library returning `NULL`. -/
structure Engine where
  proj_context_create : Option Ctx
  proj_create_crs_to_crs : Ctx → CRSDef → CRSDef → Option PJ
  proj_normalize_for_visualization : Ctx → PJ → Option PJ
  proj_trans : PJ → PJ_DIRECTION → PJ_COORD → PJ_COORD

/-- The wrapper's global mutable state: `global_context`, `global_projection`
(nullable handles) and the `proj_initialized` flag (a C `int`, only ever 0
or 1 in the source). -/
structure ProjState where
  global_context : Option Ctx
  global_projection : Option PJ
  proj_initialized : Nat
deriving DecidableEq

/-- The state at module load: both handles `NULL`, flag 0. -/
def initialState : ProjState := ⟨none, none, 0⟩

/-- `init_proj()` from the source, as a state transformer returning the C
`int` result together with the new global state.

```c
int init_proj() {
  if (proj_initialized) return 1;
  global_context = proj_context_create();
  if (!global_context) return 0;
  PJ *P = proj_create_crs_to_crs(global_context, WGS84_PROJJSON, SWEREF99_TM_PROJJSON, NULL);
  if (!P) { proj_context_destroy(global_context); global_context = NULL; return 0; }
  global_projection = proj_normalize_for_visualization(global_context, P);
  proj_destroy(P);
  if (!global_projection) { proj_context_destroy(global_context); global_context = NULL; return 0; }
  proj_initialized = 1;
  return 1;
}
``` -/
def init_proj (e : Engine) (s : ProjState) : Nat × ProjState :=
  if s.proj_initialized ≠ 0 then
    (1, s)
  else
    match e.proj_context_create with
    | none => (0, { s with global_context := none })
    | some c =>
      match e.proj_create_crs_to_crs c CRSDef.wgs84 CRSDef.sweref99tm with
      | none => (0, { s with global_context := none })
      | some P =>
        match e.proj_normalize_for_visualization c P with
        | none => (0, { s with global_context := none, global_projection := none })
        | some np =>
          (1, { s with global_context := some c, global_projection := some np,
                       proj_initialized := 1 })

/-- `cleanup_proj()` from the source: destroys whichever handles are held and
resets the flag.

```c
void cleanup_proj() {
  if (global_projection) { proj_destroy(global_projection); global_projection = NULL; }
  if (global_context) { proj_context_destroy(global_context); global_context = NULL; }
  proj_initialized = 0;
}
``` -/
def cleanup_proj (_s : ProjState) : ProjState :=
  { global_context := none, global_projection := none, proj_initialized := 0 }

/-- The sentinel the source pre-writes into the result buffer:
`result[0] = 0.0; result[1] = 0.0;` (north, east). -/
def zeroPair : FP × FP := (FP.finite 0, FP.finite 0)

/-- The tail of `wgs84_to_sweref99tm` after the lazy-initialization gate:

```c
  if (!global_projection) { return result; }   // zeros
  PJ_COORD a, b;
  a = proj_coord(lon, lat, 0, 0);
  b = proj_trans(global_projection, PJ_FWD, a);
  if (b.xy.x != HUGE_VAL && b.xy.y != HUGE_VAL) {
    result[0] = b.xy.y; // north
    result[1] = b.xy.x; // east
  }
  return result;
``` -/
def wgs84_transform (e : Engine) (lat lon : FP) (s : ProjState) :
    Option (FP × FP) × ProjState :=
  match s.global_projection with
  | none => (some zeroPair, s)
  | some p =>
    let a := proj_coord lon lat (FP.finite 0) (FP.finite 0)
    let b := e.proj_trans p PJ_FWD a
    if !(fpBeq b.x HUGE_VAL) && !(fpBeq b.y HUGE_VAL) then
      (some (b.y, b.x), s)
    else
      (some zeroPair, s)

/-- `wgs84_to_sweref99tm(lat, lon)` from the source.  `m` is the outcome of
the `malloc(2 * sizeof(double))` call for the output buffer: `false` models
allocation failure (the source returns `NULL`, here `none`); on success the
returned buffer is the pair `(result[0], result[1]) = (north, east)`.

```c
double* wgs84_to_sweref99tm(double lat, double lon) {
  double* result = (double*)malloc(2 * sizeof(double));
  if (!result) { return NULL; }
  result[0] = 0.0; result[1] = 0.0;
  if (!proj_initialized && !init_proj()) { return result; }
  ... // wgs84_transform above
}
``` -/
def wgs84_to_sweref99tm (e : Engine) (m : Bool) (lat lon : FP) (s : ProjState) :
    Option (FP × FP) × ProjState :=
  if m = false then
    (none, s)
  else if s.proj_initialized = 0 then
    let r := init_proj e s
    if r.1 = 0 then (some zeroPair, r.2)
    else wgs84_transform e lat lon r.2
  else
    wgs84_transform e lat lon s

/-! ## Concrete engines used as witnesses

The wrapper is parametric in the engine; these small concrete engines
instantiate hypotheses of the theorems below at evaluable inputs. -/

/-- An engine whose every call succeeds and whose transform is the identity
on the coordinate quadruple. -/
def constEngine : Engine where
  proj_context_create := some 0
  proj_create_crs_to_crs := fun _ _ _ => some 0
  proj_normalize_for_visualization := fun _ _ => some 0
  proj_trans := fun _ _ c => c

/-- An engine whose context creation fails (`proj_context_create` returns
`NULL`), so initialization always fails. -/
def failEngine : Engine where
  proj_context_create := none
  proj_create_crs_to_crs := fun _ _ _ => none
  proj_normalize_for_visualization := fun _ _ => none
  proj_trans := fun _ _ c => c

/-- An engine whose transform reports failure the way PROJ does: all output
components set to `HUGE_VAL` (positive infinity). -/
def hugeEngine : Engine where
  proj_context_create := some 0
  proj_create_crs_to_crs := fun _ _ _ => some 0
  proj_normalize_for_visualization := fun _ _ => some 0
  proj_trans := fun _ _ c => ⟨FP.posInf, FP.posInf, c.z, c.t⟩

/-- An engine whose transform produces a NaN `x` output (a non-finite value
that is nevertheless not equal to `HUGE_VAL`, so the source's
`b.xy.x != HUGE_VAL` success check accepts it). -/
def nanEngine : Engine where
  proj_context_create := some 0
  proj_create_crs_to_crs := fun _ _ _ => some 0
  proj_normalize_for_visualization := fun _ _ => some 0
  proj_trans := fun _ _ c => ⟨FP.nan, c.y, c.z, c.t⟩

/-! ## State invariant and reachability -/

/-- The global-state invariant: the flag is 1 exactly when both handles are
held, and a cleared flag means both handles are `NULL`. -/
def Inv (s : ProjState) : Prop :=
  (s.proj_initialized = 1 ↔ s.global_context.isSome ∧ s.global_projection.isSome) ∧
  (s.proj_initialized = 0 → s.global_context = none ∧ s.global_projection = none)

/-- States reachable from module load by any sequence of `init_proj`,
`cleanup_proj` and `wgs84_to_sweref99tm` calls against a fixed engine. -/
inductive Reachable (e : Engine) : ProjState → Prop where
  | load : Reachable e initialState
  | init_step {s} : Reachable e s → Reachable e (init_proj e s).2
  | cleanup_step {s} : Reachable e s → Reachable e (cleanup_proj s)
  | convert_step {s} (m : Bool) (lat lon : FP) :
      Reachable e s → Reachable e (wgs84_to_sweref99tm e m lat lon s).2

/-! ## A computable model of the engine's SWEREF99 TM forward projection

Modelled from the spec: the source delegates the projection mathematics to
the external PROJ engine (`proj_trans`), whose implementation is not part of
this repository.  The spec fixes what that call computes: the EPSG:9807
Transverse Mercator forward projection with the parameters embedded in the
source's `SWEREF99_TM_PROJJSON` literal — GRS 1980 ellipsoid
(`semi_major_axis` 6378137, `inverse_flattening` 298.257222101), natural
origin latitude 0 and longitude 15°, scale factor 0.9996, false easting
500000 m, false northing 0.  The standard ellipsoidal Transverse Mercator
series (Snyder, USGS PP 1395, eq. 8-9..8-13; the published EPSG:9807
formulas) is evaluated below in exact fixed-point arithmetic: every quantity
is an integer scaled by 10^30, so the whole computation is kernel-evaluable.
Trigonometric functions are 20-term Taylor series (truncation error below
1e-40 at the arguments involved); the series and fixed-point rounding errors
are many orders of magnitude below the metre-level tolerances at stake. -/

/-- The fixed-point scale: values represent (integer / 10^30). -/
def E30 : ℤ := 10 ^ 30

/-- The fixed-point scale as a rational. -/
def E30Q : ℚ := 10 ^ 30

/-- A rational, rounded down onto the fixed-point grid. -/
def q2fx (q : ℚ) : ℤ := ⌊q * E30Q⌋

/-- A fixed-point value, read back as a rational. -/
def fx2q (n : ℤ) : ℚ := (n : ℚ) / E30Q

/-- Fixed-point multiplication (floor rounding). -/
def fxMul (a b : ℤ) : ℤ := (a * b).fdiv E30

/-- Fixed-point division (floor rounding). -/
def fxDiv (a b : ℤ) : ℤ := (a * E30).fdiv b

/-- Fixed-point power by iterated fixed-point multiplication. -/
def fxPow (x : ℤ) : Nat → ℤ
  | 0 => E30
  | n + 1 => fxMul x (fxPow x n)

/-- Newton iteration for the integer square root, with explicit fuel so the
kernel can evaluate it (300 steps suffice for inputs below 10^62). -/
def isqrtAux : Nat → Nat → Nat → Nat
  | 0, _, g => g
  | fuel + 1, n, g =>
    let g2 := (g + n / g) / 2
    if g2 < g then isqrtAux fuel n g2 else g

/-- Integer square root (floor) of a natural number. -/
def isqrt (n : Nat) : Nat := if n ≤ 1 then n else isqrtAux 300 n (n / 2)

/-- Fixed-point square root of a nonnegative fixed-point value. -/
def fxSqrt (a : ℤ) : ℤ := ((isqrt (a * E30).toNat : ℕ) : ℤ)

/-- Fixed-point sine by a 20-term Taylor series. -/
def sinFx (x : ℤ) : ℤ :=
  (List.range 20).foldl
    (fun acc k =>
      let t := (fxPow x (2 * k + 1)).fdiv ((Nat.factorial (2 * k + 1) : ℕ) : ℤ)
      if k % 2 = 0 then acc + t else acc - t) 0

/-- Fixed-point cosine by a 20-term Taylor series. -/
def cosFx (x : ℤ) : ℤ :=
  (List.range 20).foldl
    (fun acc k =>
      let t := (fxPow x (2 * k)).fdiv ((Nat.factorial (2 * k) : ℕ) : ℤ)
      if k % 2 = 0 then acc + t else acc - t) 0

/-- π, rounded down onto the fixed-point grid. -/
def piFx : ℤ := 3141592653589793238462643383279

/-- Ellipsoid semi-major axis from `SWEREF99_TM_PROJJSON`: 6378137 m. -/
def aFx : ℤ := 6378137 * E30

/-- Inverse flattening from `SWEREF99_TM_PROJJSON`: 298.257222101. -/
def invfFx : ℤ := 298257222101 * 10 ^ 21

/-- Scale factor at natural origin from `SWEREF99_TM_PROJJSON`: 0.9996. -/
def k0Fx : ℤ := (9996 * E30).fdiv 10000

/-- Longitude of natural origin from `SWEREF99_TM_PROJJSON`: 15°. -/
def lon0Fx : ℤ := 15 * E30

/-- False easting from `SWEREF99_TM_PROJJSON`: 500000 m. -/
def FEFx : ℤ := 500000 * E30

/-- The EPSG:9807 Transverse Mercator forward projection (ellipsoidal form,
Snyder eq. 8-9..8-13) at the `SWEREF99_TM_PROJJSON` parameters, in
fixed-point arithmetic.  Input: geodetic latitude and longitude in degrees
(fixed point); output: (northing, easting) in metres (fixed point). -/
def tmFwdFx (latFx lonFx : ℤ) : ℤ × ℤ :=
  let phi := fxDiv (fxMul latFx piFx) (180 * E30)
  let lam := fxDiv (fxMul (lonFx - lon0Fx) piFx) (180 * E30)
  let f := fxDiv E30 invfFx
  let e2 := fxMul f (2 * E30 - f)
  let ep2 := fxDiv e2 (E30 - e2)
  let s := sinFx phi
  let c := cosFx phi
  let Nr := fxDiv aFx (fxSqrt (E30 - fxMul e2 (fxMul s s)))
  let tanphi := fxDiv s c
  let T := fxMul tanphi tanphi
  let Cc := fxMul ep2 (fxMul c c)
  let A := fxMul lam c
  let s2 := 2 * fxMul s c
  let c2 := fxMul c c - fxMul s s
  let s4 := 2 * fxMul s2 c2
  let c4 := fxMul c2 c2 - fxMul s2 s2
  let s6 := fxMul s2 c4 + fxMul c2 s4
  let e4 := fxMul e2 e2
  let e6 := fxMul e4 e2
  let M := fxMul aFx
      (fxMul (E30 - e2.fdiv 4 - (3 * e4).fdiv 64 - (5 * e6).fdiv 256) phi
        - fxMul ((3 * e2).fdiv 8 + (3 * e4).fdiv 32 + (45 * e6).fdiv 1024) s2
        + fxMul ((15 * e4).fdiv 256 + (45 * e6).fdiv 1024) s4
        - fxMul ((35 * e6).fdiv 3072) s6)
  let A2 := fxMul A A
  let A3 := fxMul A2 A
  let A4 := fxMul A3 A
  let A5 := fxMul A4 A
  let A6 := fxMul A5 A
  let east := FEFx + fxMul k0Fx (fxMul Nr
      (A + (fxMul (E30 - T + Cc) A3).fdiv 6
        + (fxMul (5 * E30 - 18 * T + fxMul T T + 72 * Cc - 58 * ep2) A5).fdiv 120))
  let north := fxMul k0Fx
      (M + fxMul Nr (fxMul tanphi
        (A2.fdiv 2 + (fxMul (5 * E30 - T + 9 * Cc + 4 * fxMul Cc Cc) A4).fdiv 24
          + (fxMul (61 * E30 - 58 * T + fxMul T T + 600 * Cc - 330 * ep2) A6).fdiv 720)))
  (north, east)

/-- Northing component of the modelled forward projection. -/
def tmNorthFx (latFx lonFx : ℤ) : ℤ := (tmFwdFx latFx lonFx).1

/-- Easting component of the modelled forward projection. -/
def tmEastFx (latFx lonFx : ℤ) : ℤ := (tmFwdFx latFx lonFx).2

/-- Modelled from the spec: the PROJ engine as the wrapper uses it, with the
forward transform given by the Transverse Mercator model above.  On a finite
(lon, lat) input quadruple it returns x = easting and y = northing (the
axis order `proj_normalize_for_visualization` establishes); on any other
input, or a non-forward direction, it reports failure the way PROJ does, by
returning `HUGE_VAL` components. -/
def tmEngine : Engine where
  proj_context_create := some 0
  proj_create_crs_to_crs := fun _ _ _ => some 0
  proj_normalize_for_visualization := fun _ _ => some 0
  proj_trans := fun _ dir c =>
    match dir, c.x, c.y with
    | PJ_DIRECTION.PJ_FWD, FP.finite lon, FP.finite lat =>
      ⟨FP.finite (fx2q (tmEastFx (q2fx lat) (q2fx lon))),
       FP.finite (fx2q (tmNorthFx (q2fx lat) (q2fx lon))), c.z, c.t⟩
    | _, _, _ => ⟨FP.posInf, FP.posInf, c.z, c.t⟩

/-- Latitude of the spec's Stockholm reference point: 59.3293°. -/
def stockholm_lat : ℚ := 593293 / 10000

/-- Longitude of the spec's Stockholm reference point: 18.0686°. -/
def stockholm_lon : ℚ := 180686 / 10000

/-- The buffer returned by `wgs84_to_sweref99tm` for the Stockholm reference
point, from a fresh module state, against the modelled engine. -/
def stockholmResult : Option (FP × FP) :=
  (wgs84_to_sweref99tm tmEngine true
    (FP.finite stockholm_lat) (FP.finite stockholm_lon) initialState).1

/-- The northing the model computes for the Stockholm reference point
(fixed point; 6580743.00906861... m). -/
def stockholmNorthFx : ℤ := 6580743009068610611530919850056357511

/-- The easting the model computes for the Stockholm reference point
(fixed point; 674571.86644764... m). -/
def stockholmEastFx : ℤ := 674571866447649297225622649237643190

/-! ## Helper lemmas -/

/-- `wgs84_transform` never touches the global state. -/
theorem wgs84_transform_state (e : Engine) (lat lon : FP) (s : ProjState) :
    (wgs84_transform e lat lon s).2 = s := by
  unfold wgs84_transform
  cases hp : s.global_projection with
  | none => rfl
  | some p =>
    dsimp only
    split <;> rfl

/-- `wgs84_transform` returns the zero sentinel, or the transform's (y, x)
pair read back from the held projection. -/
theorem wgs84_transform_val (e : Engine) (lat lon : FP) (s : ProjState) :
    (wgs84_transform e lat lon s).1 = some zeroPair ∨
    ∃ p, s.global_projection = some p ∧
      (wgs84_transform e lat lon s).1 =
        some ((e.proj_trans p PJ_FWD (proj_coord lon lat (FP.finite 0) (FP.finite 0))).y,
              (e.proj_trans p PJ_FWD (proj_coord lon lat (FP.finite 0) (FP.finite 0))).x) := by
  unfold wgs84_transform
  cases hp : s.global_projection with
  | none => exact Or.inl rfl
  | some p =>
    dsimp only
    split
    · exact Or.inr ⟨p, rfl, rfl⟩
    · exact Or.inl rfl

/-- When the transform's output has `x` or `y` equal to `HUGE_VAL`, the
sentinel is returned; likewise when no projection is held. -/
theorem wgs84_transform_sentinel (e : Engine) (lat lon : FP) (s : ProjState)
    (h : s.global_projection = none ∨
      ∃ p, s.global_projection = some p ∧
        (fpBeq (e.proj_trans p PJ_FWD (proj_coord lon lat (FP.finite 0) (FP.finite 0))).x
            HUGE_VAL = true ∨
         fpBeq (e.proj_trans p PJ_FWD (proj_coord lon lat (FP.finite 0) (FP.finite 0))).y
            HUGE_VAL = true)) :
    (wgs84_transform e lat lon s).1 = some zeroPair := by
  rcases h with h | ⟨p, hp, hxy⟩
  · unfold wgs84_transform
    rw [h]
  · unfold wgs84_transform
    rw [hp]
    dsimp only
    rcases hxy with h | h <;> rw [h] <;> simp

/-- A call on an already-initialized flag is the identity returning 1. -/
theorem init_proj_of_ne (e : Engine) (s : ProjState) (h : s.proj_initialized ≠ 0) :
    init_proj e s = (1, s) := by
  simp [init_proj, h]

/-- Full case analysis of `init_proj` from an uninitialized flag: the three
failure exits (context kept `NULL`; the normalization exit also nulls the
projection) and the success exit. -/
theorem init_proj_spec (e : Engine) (s : ProjState) (h0 : s.proj_initialized = 0) :
    (init_proj e s = (0, { s with global_context := none }) ∨
      init_proj e s = (0, { s with global_context := none, global_projection := none })) ∨
    ∃ c np, init_proj e s =
      (1, { s with global_context := some c, global_projection := some np,
                   proj_initialized := 1 }) := by
  cases hc : e.proj_context_create with
  | none => exact Or.inl (Or.inl (by simp [init_proj, h0, hc]))
  | some c =>
    cases hcrs : e.proj_create_crs_to_crs c CRSDef.wgs84 CRSDef.sweref99tm with
    | none => exact Or.inl (Or.inl (by simp [init_proj, h0, hc, hcrs]))
    | some P =>
      cases hn : e.proj_normalize_for_visualization c P with
      | none => exact Or.inl (Or.inr (by simp [init_proj, h0, hc, hcrs, hn]))
      | some np => exact Or.inr ⟨c, np, by simp [init_proj, h0, hc, hcrs, hn]⟩

/-- A failed `init_proj` from the pristine state leaves the pristine state. -/
theorem init_proj_fail_initial (e : Engine) (hf : (init_proj e initialState).1 = 0) :
    (init_proj e initialState).2 = initialState := by
  rcases init_proj_spec e initialState rfl with (hc | hc) | ⟨c, np, hc⟩
  · rw [hc]
    rfl
  · rw [hc]
    rfl
  · rw [hc] at hf
    simp at hf

/-- `init_proj` returns 0 or 1, so a non-zero result is 1. -/
theorem init_proj_initial_one (e : Engine) (hf : ¬(init_proj e initialState).1 = 0) :
    (init_proj e initialState).1 = 1 := by
  rcases init_proj_spec e initialState rfl with (hc | hc) | ⟨c, np, hc⟩
  · rw [hc] at hf
    simp at hf
  · rw [hc] at hf
    simp at hf
  · rw [hc]

/-- After a successful `init_proj` from an uninitialized flag, the flag is
set. -/
theorem init_proj_one_flag (e : Engine) (s : ProjState) (h0 : s.proj_initialized = 0)
    (h1 : (init_proj e s).1 = 1) : (init_proj e s).2.proj_initialized = 1 := by
  rcases init_proj_spec e s h0 with (hc | hc) | ⟨c, np, hc⟩
  · rw [hc] at h1
    simp at h1
  · rw [hc] at h1
    simp at h1
  · rw [hc]

/-- The conversion with an uninitialized flag: lazy initialization, then
either the sentinel (on failure) or the transform from the new state. -/
theorem wgs84_eq_of_init0 (e : Engine) (lat lon : FP) (s : ProjState)
    (h0 : s.proj_initialized = 0) :
    wgs84_to_sweref99tm e true lat lon s =
      (if (init_proj e s).1 = 0 then (some zeroPair, (init_proj e s).2)
       else wgs84_transform e lat lon (init_proj e s).2) := by
  unfold wgs84_to_sweref99tm
  rw [if_neg (by simp), if_pos h0]

/-- The conversion with an initialized flag goes straight to the transform. -/
theorem wgs84_eq_of_init1 (e : Engine) (lat lon : FP) (s : ProjState)
    (h : s.proj_initialized ≠ 0) :
    wgs84_to_sweref99tm e true lat lon s = wgs84_transform e lat lon s := by
  unfold wgs84_to_sweref99tm
  rw [if_neg (by simp), if_neg h]

/-- With a live buffer, the conversion always returns some pair. -/
theorem wgs84_isSome_of_true (e : Engine) (lat lon : FP) (s : ProjState) :
    ∃ v, (wgs84_to_sweref99tm e true lat lon s).1 = some v := by
  by_cases h0 : s.proj_initialized = 0
  · rw [wgs84_eq_of_init0 e lat lon s h0]
    by_cases hf : (init_proj e s).1 = 0
    · rw [if_pos hf]
      exact ⟨zeroPair, rfl⟩
    · rw [if_neg hf]
      rcases wgs84_transform_val e lat lon (init_proj e s).2 with h | ⟨p, _, h⟩
      exacts [⟨_, h⟩, ⟨_, h⟩]
  · rw [wgs84_eq_of_init1 e lat lon s h0]
    rcases wgs84_transform_val e lat lon s with h | ⟨p, _, h⟩
    exacts [⟨_, h⟩, ⟨_, h⟩]

/-- The pristine state satisfies the invariant. -/
theorem Inv_initial : Inv initialState := by
  constructor
  · simp [initialState]
  · intro _
    exact ⟨rfl, rfl⟩

/-- `init_proj` preserves the invariant. -/
theorem Inv_init (e : Engine) {s : ProjState} (h : Inv s) : Inv (init_proj e s).2 := by
  by_cases h0 : s.proj_initialized = 0
  · obtain ⟨hc, hp⟩ := h.2 h0
    rcases init_proj_spec e s h0 with (hcase | hcase) | ⟨c, np, hcase⟩ <;>
      rw [hcase] <;> simp [Inv, h0, hp]
  · rw [init_proj_of_ne e s h0]
    exact h

/-- `cleanup_proj` establishes the invariant from any state. -/
theorem Inv_cleanup (s : ProjState) : Inv (cleanup_proj s) := by
  simp [Inv, cleanup_proj]

/-- `wgs84_to_sweref99tm` preserves the invariant. -/
theorem Inv_convert (e : Engine) (m : Bool) (lat lon : FP) {s : ProjState} (h : Inv s) :
    Inv (wgs84_to_sweref99tm e m lat lon s).2 := by
  cases m with
  | false => exact h
  | true =>
    by_cases h0 : s.proj_initialized = 0
    · rw [wgs84_eq_of_init0 e lat lon s h0]
      by_cases hf : (init_proj e s).1 = 0
      · rw [if_pos hf]
        exact Inv_init e h
      · rw [if_neg hf, wgs84_transform_state]
        exact Inv_init e h
    · rw [wgs84_eq_of_init1 e lat lon s h0, wgs84_transform_state]
      exact h

/-- Every reachable state is the pristine state or the unique successful
initialization state the engine determines. -/
theorem reachable_cases (e : Engine) {s : ProjState} (h : Reachable e s) :
    s = initialState ∨
    ((init_proj e initialState).1 = 1 ∧ s = (init_proj e initialState).2) := by
  induction h with
  | load => exact Or.inl rfl
  | init_step hr ih =>
    rcases ih with rfl | ⟨h1, rfl⟩
    · by_cases hf : (init_proj e initialState).1 = 0
      · exact Or.inl (init_proj_fail_initial e hf)
      · exact Or.inr ⟨init_proj_initial_one e hf, rfl⟩
    · have hflag := init_proj_one_flag e initialState rfl h1
      rw [init_proj_of_ne e _ (by simp [hflag])]
      exact Or.inr ⟨h1, rfl⟩
  | cleanup_step hr ih => exact Or.inl rfl
  | convert_step m lat lon hr ih =>
    cases m with
    | false => exact ih
    | true =>
      rcases ih with rfl | ⟨h1, rfl⟩
      · by_cases hf : (init_proj e initialState).1 = 0
        · rw [wgs84_eq_of_init0 e lat lon initialState rfl, if_pos hf]
          exact Or.inl (init_proj_fail_initial e hf)
        · rw [wgs84_eq_of_init0 e lat lon initialState rfl, if_neg hf,
            wgs84_transform_state]
          exact Or.inr ⟨init_proj_initial_one e hf, rfl⟩
      · have hflag := init_proj_one_flag e initialState rfl h1
        rw [wgs84_eq_of_init1 e lat lon _ (by simp [hflag]), wgs84_transform_state]
        exact Or.inr ⟨h1, rfl⟩

/-! ## Claim theorems -/

/-- Claim C1, counterexample: the source's success check `b.xy.x != HUGE_VAL`
accepts NaN (NaN compares unequal to everything), so an engine whose forward
transform returns a non-finite (NaN) `x` does NOT produce the sentinel pair:
the NaN is written into the result buffer. -/
theorem wgs84_nonfinite_passthrough_cex :
    isFinite ((nanEngine.proj_trans 0 PJ_FWD
        (proj_coord (FP.finite 18) (FP.finite 59) (FP.finite 0) (FP.finite 0))).x) = false ∧
    (wgs84_to_sweref99tm nanEngine true (FP.finite 59) (FP.finite 18) initialState).1 =
      some (FP.finite 59, FP.nan) ∧
    (wgs84_to_sweref99tm nanEngine true (FP.finite 59) (FP.finite 18) initialState).1 ≠
      some zeroPair := by
  refine ⟨rfl, rfl, ?_⟩
  intro hcon
  rw [show (wgs84_to_sweref99tm nanEngine true (FP.finite 59) (FP.finite 18)
      initialState).1 = some (FP.finite 59, FP.nan) from rfl] at hcon
  simp [zeroPair] at hcon

/-- Claim C1 (amended): with a live output buffer, if initialization fails
(no projection is held after the call), or if the engine's forward transform
returns `x` or `y` equal to `HUGE_VAL` (positive infinity), then
`wgs84_to_sweref99tm` returns the sentinel pair (0.0, 0.0) in its result
buffer, and no other failure signal exists (the call still returns a
buffer).  Non-finite outputs other than `+∞` — NaN and `−∞` — are NOT
caught by the `!= HUGE_VAL` check and are returned as-is. -/
theorem wgs84_failure_sentinel (e : Engine) (lat lon : FP) (s : ProjState)
    (h : (wgs84_to_sweref99tm e true lat lon s).2.global_projection = none ∨
      ∃ p, (wgs84_to_sweref99tm e true lat lon s).2.global_projection = some p ∧
        (fpBeq (e.proj_trans p PJ_FWD (proj_coord lon lat (FP.finite 0) (FP.finite 0))).x
            HUGE_VAL = true ∨
         fpBeq (e.proj_trans p PJ_FWD (proj_coord lon lat (FP.finite 0) (FP.finite 0))).y
            HUGE_VAL = true)) :
    (wgs84_to_sweref99tm e true lat lon s).1 = some zeroPair := by
  by_cases h0 : s.proj_initialized = 0
  · rw [wgs84_eq_of_init0 e lat lon s h0] at h ⊢
    by_cases hf : (init_proj e s).1 = 0
    · rw [if_pos hf]
    · rw [if_neg hf] at h ⊢
      refine wgs84_transform_sentinel e lat lon _ ?_
      rwa [wgs84_transform_state] at h
  · rw [wgs84_eq_of_init1 e lat lon s h0] at h ⊢
    refine wgs84_transform_sentinel e lat lon _ ?_
    rwa [wgs84_transform_state] at h

/-- Claim C1 witness: an engine reporting failure the PROJ way (all-`HUGE_VAL`
output) yields the zero sentinel. -/
theorem wgs84_failure_sentinel_witness :
    (wgs84_to_sweref99tm hugeEngine true (FP.finite 59) (FP.finite 18) initialState).1 =
      some zeroPair :=
  wgs84_failure_sentinel hugeEngine (FP.finite 59) (FP.finite 18) initialState
    (Or.inr ⟨0, rfl, Or.inl rfl⟩)

/-- Claim C2, counterexample: the returned pair need not be finite — an
engine producing a NaN component has that NaN returned in the buffer, so
"returns ... a finite-but-meaningless pair" is not literally true. -/
theorem wgs84_nonfinite_pair_cex :
    (wgs84_to_sweref99tm nanEngine true (FP.finite 1) (FP.finite 2) initialState).1 =
      some (FP.finite 1, FP.nan) ∧
    isFinite FP.nan = false := ⟨rfl, rfl⟩

/-- Claim C2 (amended): `wgs84_to_sweref99tm` is total over all inputs: it
validates nothing — the coordinate handed to the engine is exactly
`proj_coord lon lat 0 0`, whatever the values — and every call returns
either `NULL` (allocation failure), the zero sentinel, or the engine's
transformed pair exactly as produced (finite or not). -/
theorem wgs84_total (e : Engine) (m : Bool) (lat lon : FP) (s : ProjState) :
    (wgs84_to_sweref99tm e m lat lon s).1 = none ∨
    (wgs84_to_sweref99tm e m lat lon s).1 = some zeroPair ∨
    ∃ p, (wgs84_to_sweref99tm e m lat lon s).2.global_projection = some p ∧
      (wgs84_to_sweref99tm e m lat lon s).1 =
        some ((e.proj_trans p PJ_FWD (proj_coord lon lat (FP.finite 0) (FP.finite 0))).y,
              (e.proj_trans p PJ_FWD (proj_coord lon lat (FP.finite 0) (FP.finite 0))).x) := by
  cases m with
  | false => exact Or.inl rfl
  | true =>
    by_cases h0 : s.proj_initialized = 0
    · rw [wgs84_eq_of_init0 e lat lon s h0]
      by_cases hf : (init_proj e s).1 = 0
      · rw [if_pos hf]
        exact Or.inr (Or.inl rfl)
      · rw [if_neg hf]
        rcases wgs84_transform_val e lat lon (init_proj e s).2 with h | ⟨p, hp, h⟩
        · exact Or.inr (Or.inl h)
        · exact Or.inr (Or.inr ⟨p, by rw [wgs84_transform_state]; exact hp, h⟩)
    · rw [wgs84_eq_of_init1 e lat lon s h0]
      rcases wgs84_transform_val e lat lon s with h | ⟨p, hp, h⟩
      · exact Or.inr (Or.inl h)
      · exact Or.inr (Or.inr ⟨p, by rw [wgs84_transform_state]; exact hp, h⟩)

/-- Claim C3: `init_proj` is idempotent — from a state where initialization
already succeeded, a second call returns success flag 1, leaves the whole
state (context, projection, flag) unchanged, and a subsequent conversion
returns exactly what it would have returned without the explicit call. -/
theorem init_proj_idempotent (e : Engine) (m : Bool) (lat lon : FP) (s : ProjState)
    (h : s.proj_initialized = 1) :
    init_proj e s = (1, s) ∧
    wgs84_to_sweref99tm e m lat lon (init_proj e s).2 =
      wgs84_to_sweref99tm e m lat lon s := by
  have h1 : init_proj e s = (1, s) := init_proj_of_ne e s (by simp [h])
  exact ⟨h1, by rw [h1]⟩

/-- Claim C3 witness. -/
theorem init_proj_idempotent_witness :
    init_proj constEngine ⟨some 0, some 0, 1⟩ = (1, ⟨some 0, some 0, 1⟩) :=
  (init_proj_idempotent constEngine true (FP.finite 0) (FP.finite 0)
    ⟨some 0, some 0, 1⟩ rfl).1

/-- Claim C4: from any reachable state, `cleanup_proj` followed by
`wgs84_to_sweref99tm (lat, lon)` returns the same buffer contents that
`wgs84_to_sweref99tm (lat, lon)` returns without the cleanup:
re-initialization happens transparently inside the conversion and, the
engine being deterministic, rebuilds the same projection. -/
theorem cleanup_then_convert_eq (e : Engine) (m : Bool) (lat lon : FP) {s : ProjState}
    (h : Reachable e s) :
    (wgs84_to_sweref99tm e m lat lon (cleanup_proj s)).1 =
      (wgs84_to_sweref99tm e m lat lon s).1 := by
  have hcl : cleanup_proj s = initialState := rfl
  rw [hcl]
  rcases reachable_cases e h with rfl | ⟨h1, rfl⟩
  · rfl
  · cases m with
    | false => rfl
    | true =>
      have hflag := init_proj_one_flag e initialState rfl h1
      rw [wgs84_eq_of_init0 e lat lon initialState rfl, if_neg (by simp [h1]),
        wgs84_eq_of_init1 e lat lon _ (by simp [hflag])]

/-- Claim C4 witness. -/
theorem cleanup_then_convert_eq_witness :
    (wgs84_to_sweref99tm constEngine true (FP.finite 59) (FP.finite 18)
        (cleanup_proj initialState)).1 =
      (wgs84_to_sweref99tm constEngine true (FP.finite 59) (FP.finite 18) initialState).1 :=
  cleanup_then_convert_eq constEngine true (FP.finite 59) (FP.finite 18) Reachable.load

/-- Claim C5: if `init_proj` fails at any step, then after it returns 0 no
handle is retained — `global_context` and `global_projection` are `NULL` and
the flag is 0 (given the standing invariant that an uninitialized state
holds no stale projection) — and every subsequent conversion call itself
retries initialization before transforming. -/
theorem init_proj_failure_resets (e : Engine) (s : ProjState)
    (hfail : (init_proj e s).1 = 0)
    (hinv : s.proj_initialized = 0 → s.global_projection = none) :
    (init_proj e s).2.global_context = none ∧
    (init_proj e s).2.global_projection = none ∧
    (init_proj e s).2.proj_initialized = 0 ∧
    ∀ lat lon : FP,
      wgs84_to_sweref99tm e true lat lon (init_proj e s).2 =
        (if (init_proj e (init_proj e s).2).1 = 0 then
          (some zeroPair, (init_proj e (init_proj e s).2).2)
        else wgs84_transform e lat lon (init_proj e (init_proj e s).2).2) := by
  by_cases h0 : s.proj_initialized = 0
  · rcases init_proj_spec e s h0 with (hc | hc) | ⟨c, np, hc⟩
    · rw [hc]
      exact ⟨rfl, hinv h0, h0, fun lat lon => wgs84_eq_of_init0 e lat lon _ h0⟩
    · rw [hc]
      exact ⟨rfl, rfl, h0, fun lat lon => wgs84_eq_of_init0 e lat lon _ h0⟩
    · rw [hc] at hfail
      simp at hfail
  · rw [init_proj_of_ne e s h0] at hfail
    simp at hfail

/-- Claim C5 witness: an engine whose context creation fails. -/
theorem init_proj_failure_resets_witness :
    (init_proj failEngine initialState).2.global_context = none ∧
    (init_proj failEngine initialState).2.proj_initialized = 0 :=
  ⟨(init_proj_failure_resets failEngine initialState rfl (fun _ => rfl)).1,
   (init_proj_failure_resets failEngine initialState rfl (fun _ => rfl)).2.2.1⟩

/-- Claim C6: the conversion builds the engine coordinate in the fixed order
(longitude, latitude, height 0, time 0), applies the engine's forward
(`PJ_FWD`) transform, and on success reads back `x` as easting and `y` as
northing, returning the pair ordered (north, east). -/
theorem wgs84_coord_order (e : Engine) (lat lon : FP) (s : ProjState) (p : PJ)
    (hinit : s.proj_initialized = 1) (hp : s.global_projection = some p)
    (hx : fpBeq (e.proj_trans p PJ_FWD (proj_coord lon lat (FP.finite 0) (FP.finite 0))).x
        HUGE_VAL = false)
    (hy : fpBeq (e.proj_trans p PJ_FWD (proj_coord lon lat (FP.finite 0) (FP.finite 0))).y
        HUGE_VAL = false) :
    (wgs84_to_sweref99tm e true lat lon s).1 =
      some ((e.proj_trans p PJ_FWD (proj_coord lon lat (FP.finite 0) (FP.finite 0))).y,
            (e.proj_trans p PJ_FWD (proj_coord lon lat (FP.finite 0) (FP.finite 0))).x) := by
  rw [wgs84_eq_of_init1 e lat lon s (by simp [hinit])]
  unfold wgs84_transform
  rw [hp]
  dsimp only
  rw [hx, hy]
  rfl

/-- Claim C6 witness: the identity engine maps (lat 59, lon 18) to the pair
(north = 59, east = 18) read back in (y, x) order. -/
theorem wgs84_coord_order_witness :
    (wgs84_to_sweref99tm constEngine true (FP.finite 59) (FP.finite 18)
        ⟨some 0, some 0, 1⟩).1 = some (FP.finite 59, FP.finite 18) :=
  wgs84_coord_order constEngine (FP.finite 59) (FP.finite 18)
    ⟨some 0, some 0, 1⟩ 0 rfl rfl rfl rfl

/-- Claim C7: `wgs84_to_sweref99tm` returns `NULL` exactly when allocation
of the output buffer fails; otherwise it returns a buffer of exactly two
doubles, north at index 0 and east at index 1 (the pair (n, ea) below). -/
theorem wgs84_null_iff_alloc (e : Engine) (m : Bool) (lat lon : FP) (s : ProjState) :
    ((wgs84_to_sweref99tm e m lat lon s).1 = none ↔ m = false) ∧
    (m = true → ∃ n ea : FP, (wgs84_to_sweref99tm e m lat lon s).1 = some (n, ea)) := by
  cases m with
  | false => exact ⟨⟨fun _ => rfl, fun _ => rfl⟩, by simp⟩
  | true =>
    obtain ⟨v, hv⟩ := wgs84_isSome_of_true e lat lon s
    refine ⟨⟨fun h => ?_, fun h => by cases h⟩, fun _ => ⟨v.1, v.2, by rw [hv]⟩⟩
    rw [hv] at h
    cases h

/-- Claim C7 witness: allocation failure yields `NULL`; success yields a
pair. -/
theorem wgs84_null_iff_alloc_witness :
    (wgs84_to_sweref99tm constEngine false (FP.finite 59) (FP.finite 18) initialState).1 =
      none :=
  ((wgs84_null_iff_alloc constEngine false (FP.finite 59) (FP.finite 18)
    initialState).1).mpr rfl

/-- Claim C9: after any sequence of `init_proj`, `cleanup_proj` and
`wgs84_to_sweref99tm` calls, the flag is 1 exactly when both handles are
held, and a cleared flag means both handles are `NULL` — never a dangling or
half-initialized handle pair. -/
theorem reachable_inv (e : Engine) {s : ProjState} (h : Reachable e s) : Inv s := by
  induction h with
  | load => exact Inv_initial
  | init_step _ ih => exact Inv_init e ih
  | cleanup_step _ _ => exact Inv_cleanup _
  | convert_step m lat lon _ ih => exact Inv_convert e m lat lon ih

/-- Claim C9 witness: the invariant at the pristine state. -/
theorem reachable_inv_witness : Inv initialState :=
  reachable_inv constEngine Reachable.load

/-- Claim C10: when the converter is already initialized, a conversion call
leaves the entire global state (context, projection, flag) unchanged. -/
theorem wgs84_frame (e : Engine) (m : Bool) (lat lon : FP) (s : ProjState)
    (h : s.proj_initialized = 1) :
    (wgs84_to_sweref99tm e m lat lon s).2 = s := by
  cases m with
  | false => rfl
  | true => rw [wgs84_eq_of_init1 e lat lon s (by simp [h]), wgs84_transform_state]

/-- Claim C10 witness. -/
theorem wgs84_frame_witness :
    (wgs84_to_sweref99tm constEngine true (FP.finite 59) (FP.finite 18)
        ⟨some 0, some 0, 1⟩).2 = ⟨some 0, some 0, 1⟩ :=
  wgs84_frame constEngine true (FP.finite 59) (FP.finite 18) ⟨some 0, some 0, 1⟩ rfl

set_option maxRecDepth 4000 in
/-- Kernel evaluation of the modelled conversion at the Stockholm reference
point: the wrapper, run against the modelled engine from a fresh state,
returns exactly the fixed-point values computed by the Transverse Mercator
model. -/
theorem stockholmResult_eval :
    stockholmResult =
      some (FP.finite (fx2q stockholmNorthFx), FP.finite (fx2q stockholmEastFx)) := by
  have h1 : stockholmResult =
      some (FP.finite (fx2q (tmNorthFx (q2fx stockholm_lat) (q2fx stockholm_lon))),
            FP.finite (fx2q (tmEastFx (q2fx stockholm_lat) (q2fx stockholm_lon)))) := rfl
  have hlat : q2fx stockholm_lat = 59329300000000000000000000000000 := by
    norm_num [q2fx, stockholm_lat, E30Q]
  have hlon : q2fx stockholm_lon = 18068600000000000000000000000000 := by
    norm_num [q2fx, stockholm_lon, E30Q]
  have hN : tmNorthFx 59329300000000000000000000000000 18068600000000000000000000000000 =
      stockholmNorthFx := by decide
  have hE : tmEastFx 59329300000000000000000000000000 18068600000000000000000000000000 =
      stockholmEastFx := by decide
  rw [h1, hlat, hlon, hN, hE]

/-- Claim C8, counterexample: converting the spec's reference point
(latitude 59.3293, longitude 18.0686) does NOT yield north ≈ 6580822 m,
east ≈ 674032 m within a few metres: the easting is more than 500 m away
from 674032 and the northing more than 78 m away from 6580822.  (The claimed
pair is the EPSG:3006 image of a different point, ≈ (59.33023, 18.05919).) -/
theorem stockholm_reference_cex :
    stockholmResult =
      some (FP.finite (fx2q stockholmNorthFx), FP.finite (fx2q stockholmEastFx)) ∧
    500 < |fx2q stockholmEastFx - 674032| ∧
    78 < |fx2q stockholmNorthFx - 6580822| := by
  refine ⟨stockholmResult_eval, ?_, ?_⟩
  · rw [lt_abs]
    left
    norm_num [fx2q, E30Q, stockholmEastFx]
  · rw [lt_abs]
    right
    norm_num [fx2q, E30Q, stockholmNorthFx]

/-- Claim C8 (amended): converting the reference point latitude 59.3293,
longitude 18.0686 with `wgs84_to_sweref99tm` yields north ≈ 6,580,743 m and
east ≈ 674,572 m — within a metre of the published EPSG:3006 transform of
that point (6580743.009, 674571.866). -/
theorem stockholm_reference_amended :
    stockholmResult =
      some (FP.finite (fx2q stockholmNorthFx), FP.finite (fx2q stockholmEastFx)) ∧
    |fx2q stockholmNorthFx - 6580743| < 1 ∧
    |fx2q stockholmEastFx - 674572| < 1 := by
  refine ⟨stockholmResult_eval, ?_, ?_⟩ <;> rw [abs_lt] <;> constructor <;>
    norm_num [fx2q, E30Q, stockholmNorthFx, stockholmEastFx]

end SR9
